import Mathlib

/-!
Verification of the Playwriter Narrative Engine against its specification.

This file gives a shallow embedding, in Lean 4, of the parts of the
`playwriter` source that the checked claims are about:

* `src/playwriter/services/dice.py` — the dice service
  (`classify_outcome`, `assess_fate_modifiers`, `resolve_action`);
* `src/playwriter/services/narrative_engine.py` — the narrative engine
  (`plan_act`, `advance_thread_states`, `_calculate_beat_deltas`,
  `resolve_beat`, `advance`, `director_override_dice`, `get_dice_history`,
  `delete_world`);
* `src/playwriter/api/narrative.py` — the DELETE `/worlds/{world_id}` route;
* `src/playwriter/models/narrative.py` and `models/story.py` — the data model.

Conventions of the embedding:

* Python `int` is modelled as `Int`; list/dict fields as `List`.
* Every LLM completion, every random draw (d100 roll, trope sample) and
  every generated uuid is an explicit parameter of the embedded function
  (an oracle input), since the source treats them as opaque inputs whose
  value the surrounding code never inspects before the modelled point.
* The result of JSON-parsing an LLM answer is modelled by `LLMResult`:
  `.err` stands for any exception raised while completing or while
  decoding the answer (the source catches all of these with one
  `except Exception` per call site), `.ok v` for a successfully decoded
  value `v`, already projected onto the fields the source reads.
* Python code that can raise to its caller is modelled in
  `Except String`; the string is a label for the exception raised.
* Pydantic field validation that can reject a value at construction time
  (for example `DiceRoll.raw_roll` with `ge=1, le=100`, or the
  `NarrativeThreadState.thread` sub-model) is modelled at the point where
  the source constructs the model instance.
-/

namespace Playwriter

/-- Trope, from `models/trope.py`: `{id, name, description}`. -/
structure Trope where
  id : Nat
  name : String
  description : String
deriving DecidableEq

instance : Inhabited Trope := ⟨⟨0, "", ""⟩⟩

/-- The five-tier outcome ladder, `DiceOutcome` in `models/narrative.py`. -/
inductive DiceOutcome where
  | catastrophic_failure
  | failure
  | mixed
  | success
  | critical_success
deriving DecidableEq

/-- The `.value` string of each `DiceOutcome` enum member. -/
def DiceOutcome.value : DiceOutcome → String
  | .catastrophic_failure => "catastrophic_failure"
  | .failure => "failure"
  | .mixed => "mixed"
  | .success => "success"
  | .critical_success => "critical_success"

/-- `FateModifier` from `models/narrative.py`: a trope applied as a fate
modifier to a dice roll.  Pydantic bounds the `modifier` field by
`ge=-30, le=30`; the dice service always clamps before construction, so
construction never fails. -/
structure FateModifier where
  trope : Trope
  modifier : Int
  rationale : String
deriving DecidableEq

/-- Outcome of one LLM completion plus JSON decoding, as observed by the
calling code: either a decoded value or some exception (network failure,
invalid JSON, missing field of the wrong type, ...). -/
inductive LLMResult (α : Type) where
  | ok (val : α)
  | err
deriving DecidableEq

/-- One entry of the JSON list which `assess_fate_modifiers` reads from the
fast LLM: the source projects each item onto
`item.get("trope_name", "")`, `int(item.get("modifier", 0))` and
`item.get("rationale", "")`. -/
structure ModifierItem where
  trope_name : String
  modifier : Int
  rationale : String
deriving DecidableEq

/-- `DiceRoll` from `models/narrative.py`. -/
structure DiceRoll where
  raw_roll : Int
  fate_modifiers : List FateModifier
  final_value : Int
  outcome : DiceOutcome
  action_description : String
  actor : String
deriving DecidableEq

/-- Python `max(lo, min(hi, x))`, the clamp used throughout `dice.py`. -/
def clamp (x lo hi : Int) : Int := max lo (min hi x)

/-- `DiceService.classify_outcome` from `services/dice.py`, lines 60-71:
map a 1-100 value to the five-tier outcome ladder. -/
def classify_outcome (value : Int) : DiceOutcome :=
  if value ≤ 5 then .catastrophic_failure
  else if value ≤ 30 then .failure
  else if value ≤ 60 then .mixed
  else if value ≤ 90 then .success
  else .critical_success

/-- The body of the loop in `assess_fate_modifiers`, lines 121-131 of
`services/dice.py`: find the trope matching `item.trope_name` (first match,
else the first active trope), clamp the modifier to `[-30, 30]`, and build
the `FateModifier`.  The source reaches this loop only when
`active_tropes` is non-empty, so the `headD` default is never used. -/
def fate_modifier_of (active_tropes : List Trope) (item : ModifierItem) :
    FateModifier :=
  let matching := active_tropes.filter (fun t => t.name == item.trope_name)
  let trope := match matching with
    | t :: _ => t
    | [] => active_tropes.headD default
  { trope := trope
    modifier := max (-30) (min 30 item.modifier)
    rationale := item.rationale }

/-- `DiceService.assess_fate_modifiers` from `services/dice.py`,
lines 75-140.  The prompt build and the LLM call are abstracted into the
`llm` oracle: `.ok items` is the decoded list of modifier items (the
source accepts either a bare JSON list or `data["modifiers"]`, and an
absent key yields the empty list), `.err` is any exception raised while
completing or decoding, in which case the source returns one neutral
(zero) modifier per active trope. -/
def assess_fate_modifiers (active_tropes : List Trope)
    (llm : LLMResult (List ModifierItem)) : List FateModifier :=
  if active_tropes.isEmpty then []
  else
    match llm with
    | .ok items => items.map (fate_modifier_of active_tropes)
    | .err =>
      active_tropes.map
        (fun t => { trope := t, modifier := 0, rationale := "(assessment failed)" })

/-- `DiceService.resolve_action` from `services/dice.py`, lines 144-204.
The trope sampling of step 1 (`random.sample` from the pool, or a global
`sample_random`) is abstracted into the already-sampled `active_tropes`;
the d100 roll of step 3 into `d100` (the value `roll_d100()` would
return, always in `[1..100]`).  Pydantic validates `raw_roll ∈ [1..100]`
when the `DiceRoll` is constructed; an out-of-range `override_roll`
therefore raises a `ValidationError`, modelled as the `.error` branch. -/
def resolve_action (action actor : String) (active_tropes : List Trope)
    (llm : LLMResult (List ModifierItem)) (d100 : Int)
    (override_roll : Option Int) : Except String DiceRoll :=
  let modifiers := assess_fate_modifiers active_tropes llm
  let raw := override_roll.getD d100
  let total_modifier := (modifiers.map (fun m => m.modifier)).sum
  let final := max 1 (min 100 (raw + total_modifier))
  let outcome := classify_outcome final
  if 1 ≤ raw ∧ raw ≤ 100 then
    .ok { raw_roll := raw, fate_modifiers := modifiers, final_value := final,
          outcome := outcome, action_description := action, actor := actor }
  else
    .error "ValidationError: raw_roll out of range"

/-- `NarrativeThread` from `models/story.py`: a single narrative thread,
one `thread` string field. -/
structure NarrativeThread where
  thread : String
deriving DecidableEq

/-- `NarrativeThreadState` from `models/narrative.py`.  `status` is a
pydantic `Literal` over the five strings below; `tension_level` is bounded
`ge=1, le=10`.  The engine constructs instances only with an already
validated status and an explicitly clamped tension, so validation is
modelled at the construction sites. -/
structure NarrativeThreadState where
  thread : NarrativeThread
  status : String
  tension_level : Int
  notes : String
deriving DecidableEq

/-- The JSON value found under the key `"thread"` of one item returned by
the thread-state advancer LLM.  Pydantic accepts a dict (coerced into a
`NarrativeThread`) and rejects a bare string. -/
inductive JsonThread where
  | str (s : String)
  | obj (thread : String)
deriving DecidableEq

/-- One decoded item of the list the thread-state advancer LLM returns, as
read by `advance_thread_states` (lines 682-690 of
`services/narrative_engine.py`): `item.get("thread", "")`,
`item.get("status", "active")`, `int(item.get("tension_level", 5))`.
A missing key is `none`. -/
structure ThreadItem where
  thread : Option JsonThread
  status : Option String
  tension_level : Option Int
deriving DecidableEq

/-- The construction of one `NarrativeThreadState` inside the loop of
`advance_thread_states`, lines 683-690: the status is replaced by
`"active"` unless it is one of the five legal literals, the tension is
clamped into `[0, 10]` by `max(0, min(10, ...))`, and then pydantic
validation runs: a non-dict `thread` value (for example the default `""`)
is rejected, as is a clamped tension of `0` (the field requires `ge=1`).
`none` models the raised `ValidationError`. -/
def mkThreadState (item : ThreadItem) : Option NarrativeThreadState :=
  let status0 := item.status.getD "active"
  let status :=
    if status0 == "active" || status0 == "advancing" || status0 == "stalled"
        || status0 == "resolved" || status0 == "spawned"
    then status0 else "active"
  let tension := max 0 (min 10 (item.tension_level.getD 5))
  match item.thread.getD (.str "") with
  | .str _ => none
  | .obj t =>
    if 1 ≤ tension then
      some { thread := ⟨t⟩, status := status, tension_level := tension, notes := "" }
    else none

/-- `NarrativeEngine.advance_thread_states` from
`services/narrative_engine.py`, lines 638-698, restricted to its effect on
`world.thread_states` (the prompt build and the LLM call are abstracted
into the `llm` oracle).  On a decoded list, each item is converted by
`mkThreadState`; an exception at any item (modelled by `mapM` returning
`none`) aborts the whole update and the old states are returned, and so
does `.err`; otherwise `world.thread_states` is replaced wholesale by the
new list. -/
def advance_thread_states (old : List NarrativeThreadState)
    (llm : LLMResult (List ThreadItem)) : List NarrativeThreadState :=
  match llm with
  | .err => old
  | .ok items =>
    match items.mapM mkThreadState with
    | none => old
    | some new_states => new_states

/-- `CharacterDelta` from `models/narrative.py`. -/
structure CharacterDelta where
  character_name : String
  new_short_term_memories : List String
  new_long_term_memories : List String
  internal_state_shift : String
  ambition_shift : String
  contradiction_shifts : List String
  physical_state_change : String
deriving DecidableEq

/-- The decoded JSON object the beat-delta LLM returns, as read by
`_calculate_beat_deltas` (lines 985-993 of `services/narrative_engine.py`)
via `data.get(...)` with the defaults shown there. -/
structure DeltaJson where
  character_name : Option String
  new_short_term_memories : List String
  new_long_term_memories : List String
  internal_state_shift : String
  ambition_shift : String
  contradiction_shifts : List String
  physical_state_change : String
deriving DecidableEq

/-- `NarrativeEngine._calculate_beat_deltas` from
`services/narrative_engine.py`, lines 945-1006.  The prompt build and the
fast-LLM call are abstracted into the `llm` oracle.  On any exception
(`.err`) the source synthesizes one minimal delta for the acting
character, whose single new short-term memory is `actual_outcome[:200]`
— the actual outcome truncated to its first 200 characters. -/
def calculate_beat_deltas (actor : String) (actual_outcome : String)
    (llm : LLMResult DeltaJson) : List CharacterDelta :=
  match llm with
  | .ok d =>
    [{ character_name := d.character_name.getD actor
       new_short_term_memories := d.new_short_term_memories
       new_long_term_memories := d.new_long_term_memories
       internal_state_shift := d.internal_state_shift
       ambition_shift := d.ambition_shift
       contradiction_shifts := d.contradiction_shifts
       physical_state_change := d.physical_state_change }]
  | .err =>
    [{ character_name := actor
       new_short_term_memories := [actual_outcome.take 200]
       new_long_term_memories := []
       internal_state_shift := ""
       ambition_shift := ""
       contradiction_shifts := []
       physical_state_change := "" }]

/-- `Character` from `models/character.py` (all fields default to empty). -/
structure Character where
  name : String
  internal_state : String
  ambitions : String
  teleology : String
  philosophy : String
  physical_state : String
  long_term_memory : List String
  short_term_memory : List String
  internal_contradictions : List String
  voice_style : String
deriving DecidableEq

/-- `CharacterSummary` from `models/story.py`. -/
structure CharacterSummary where
  name : String
  description : String
deriving DecidableEq

/-- `TCCN` from `models/story.py`: the four-part story seed. -/
structure TCCN where
  teleology : String
  context : String
  characters : List CharacterSummary
  narrative_threads : List NarrativeThread
deriving DecidableEq

/-- `Beat` from `models/narrative.py`. -/
structure Beat where
  id : String
  scene_id : String
  sequence : Nat
  actor : String
  intended_action : String
  dice_roll : Option DiceRoll
  actual_outcome : String
  prose : String
  character_deltas : List CharacterDelta
  tropes_active : List Trope
deriving DecidableEq

/-- `EngineScene` from `models/narrative.py`.  The `planned_actions` field
models the `_planned_actions` attribute that `advance` attaches
dynamically to the scene object (line 1053 of
`services/narrative_engine.py`); it starts empty, matching
`getattr(scene, "_planned_actions", [])`.  `tropes_injected` keeps only
the sampled trope list of the `TropeSample`. -/
structure EngineScene where
  id : String
  act_id : String
  number : Nat
  actors : List String
  setting : String
  place_description : String
  narrative_threads : List NarrativeThreadState
  tropes_injected : List Trope
  beats : List Beat
  scene_evaluation : String
  full_prose : String
  status : String
  planned_actions : List (String × String)
deriving DecidableEq

/-- `WorldEvent` from `models/narrative.py`. -/
structure WorldEvent where
  id : String
  description : String
  impact_on_context : String
  affected_characters : List String
  affected_threads : List String
  spawned_threads : List NarrativeThread
deriving DecidableEq

/-- `TeleologyShift` from `models/narrative.py`. -/
structure TeleologyShift where
  original : String
  shifted : String
  reason : String
deriving DecidableEq

/-- `ActPlan` from `models/narrative.py`; the two dict fields are modelled
as association lists. -/
structure ActPlan where
  planned_scenes : List String
  thread_goals : List (String × String)
  character_arcs : List (String × String)
  world_events_planned : List String
deriving DecidableEq

/-- `Act` from `models/narrative.py`. -/
structure Act where
  id : String
  number : Nat
  title : String
  plan : Option ActPlan
  scenes : List EngineScene
  world_events : List WorldEvent
  teleology_shift : Option TeleologyShift
  context_evolution : String
  status : String
deriving DecidableEq

/-- `DirectorIntervention` from `models/narrative.py`, without the
timestamp.  `director_override_dice` passes an (ignored) extra `type=`
keyword, so `intervention_type` keeps its default `"override_dice"`. -/
structure DirectorIntervention where
  intervention_type : String
  description : String
deriving DecidableEq

/-- `NarrativeWorld` from `models/narrative.py`: the complete state of a
running session.  The `characters` dict is an association list in
insertion order; `mode` is its `.value` string; `created_at` is omitted
(never read by the engine). -/
structure NarrativeWorld where
  id : String
  seed_description : String
  tccn : TCCN
  characters : List (String × Character)
  acts : List Act
  current_act_index : Nat
  current_scene_index : Nat
  current_beat_index : Nat
  thread_states : List NarrativeThreadState
  global_trope_pool : List Trope
  mode : String
  director_interventions : List DirectorIntervention
  accumulated_prose : String
  status : String
deriving DecidableEq

/-- The inner loop of `NarrativeEngine._find_scene` (lines 732-738) over
one scenes list: first scene whose `id` matches. -/
def find_scene_in (scenes : List EngineScene) (scene_id : String) :
    Option EngineScene :=
  match scenes with
  | [] => none
  | s :: rest => if s.id == scene_id then some s else find_scene_in rest scene_id

/-- `NarrativeEngine._find_scene` (lines 732-738): scan the acts in order,
and inside each act its scenes in order. -/
def find_scene_acts (acts : List Act) (scene_id : String) :
    Option EngineScene :=
  match acts with
  | [] => none
  | a :: rest =>
    match find_scene_in a.scenes scene_id with
    | some s => some s
    | none => find_scene_acts rest scene_id

/-- In-place mutation of the scene object `_find_scene` returned, within
one scenes list: apply `f` to the first scene whose `id` matches. -/
def update_scene_in (scenes : List EngineScene) (scene_id : String)
    (f : EngineScene → EngineScene) : List EngineScene :=
  match scenes with
  | [] => []
  | s :: rest =>
    if s.id == scene_id then f s :: rest
    else s :: update_scene_in rest scene_id f

/-- In-place mutation of the scene object `_find_scene` returned, across
the acts list: the first act containing a matching scene has that scene
updated, everything else is untouched. -/
def update_scene_acts (acts : List Act) (scene_id : String)
    (f : EngineScene → EngineScene) : List Act :=
  match acts with
  | [] => []
  | a :: rest =>
    match find_scene_in a.scenes scene_id with
    | some _ => { a with scenes := update_scene_in a.scenes scene_id f } :: rest
    | none => a :: update_scene_acts rest scene_id f

/-- Outcome of decoding the act-planner LLM answer in `plan_act`
(lines 301-316 of `services/narrative_engine.py`), as three source-level
cases:

* `jsonError` — `_safe_json_loads(raw)` itself raised, so the local
  variable `data` was never assigned;
* `planError isDict title` — `data` was assigned but the `ActPlan`
  construction raised (for example `data` is a list, so `data.get`
  raises); `isDict` records whether `data` is a dict and `title` the
  value of `data.get("title")` when it is;
* `parsed title plan` — both succeeded (which requires `data` to be a
  dict), with `title = data.get("title")`. -/
inductive PlanParse where
  | jsonError
  | planError (isDict : Bool) (title : Option String)
  | parsed (title : Option String) (plan : ActPlan)
deriving DecidableEq

/-- The minimal fallback plan of lines 311-316:
`planned_scenes=[f"Scene {i+1}" for i in range(3)]` and no goals. -/
def fallback_plan : ActPlan :=
  { planned_scenes := (List.range 3).map (fun i => "Scene " ++ toString (i + 1))
    thread_goals := []
    character_arcs := []
    world_events_planned := [] }

/-- `NarrativeEngine.plan_act` from `services/narrative_engine.py`,
lines 272-336, with the prompt build and LLM call abstracted into the
`llm` oracle and the generated act id into `act_id`.  In the `jsonError`
case the `except` branch assigns the fallback plan, but line 321 then
evaluates `isinstance(data, dict)` with `data` unbound, so the call
raises `UnboundLocalError` and no act is appended. -/
def plan_act (w : NarrativeWorld) (act_id : String) (llm : PlanParse) :
    Except String (Act × NarrativeWorld) :=
  let act_number := w.acts.length + 1
  let append := fun (title : String) (plan : ActPlan) =>
    let act : Act :=
      { id := act_id, number := act_number, title := title, plan := some plan
        scenes := [], world_events := [], teleology_shift := none
        context_evolution := "", status := "planned" }
    let w2 :=
      { w with acts := w.acts ++ [act]
               current_act_index := w.acts.length + 1 - 1
               current_scene_index := 0
               current_beat_index := 0
               status := "act_planned" }
    Except.ok (act, w2)
  match llm with
  | .jsonError => .error "UnboundLocalError: data is unbound"
  | .planError isDict title =>
    let t := if isDict then title.getD ("Act " ++ toString act_number)
             else "Act " ++ toString act_number
    append t fallback_plan
  | .parsed title plan =>
    append (title.getD ("Act " ++ toString act_number)) plan

/-- The oracle inputs of one `resolve_beat` call: the tropes selected in
step 1 of `resolve_action`, the fate-modifier LLM answer, the d100 value
`roll_d100()` would produce, the narrated actual outcome and the
theatrical prose (both already `.strip()`-ed), the beat-delta LLM answer,
and the generated beat id. -/
structure BeatOracle where
  active_tropes : List Trope
  fate_llm : LLMResult (List ModifierItem)
  d100 : Int
  actual_outcome : String
  prose : String
  delta_llm : LLMResult DeltaJson
  beat_id : String
deriving DecidableEq

/-- `NarrativeEngine.resolve_beat` from `services/narrative_engine.py`,
lines 804-943: find the scene, resolve the dice, narrate (oracle), write
prose (oracle), compute deltas, append the `Beat` to the found scene and
update the world counters. -/
def resolve_beat (w : NarrativeWorld) (scene_id : String)
    (actor action : String) (override_roll : Option Int) (o : BeatOracle) :
    Except String (Beat × NarrativeWorld) :=
  match find_scene_acts w.acts scene_id with
  | none => .error ("Scene " ++ scene_id ++ " not found")
  | some scene =>
    let beat_sequence := scene.beats.length + 1
    match resolve_action action actor o.active_tropes o.fate_llm o.d100
        override_roll with
    | .error e => .error e
    | .ok dice_roll =>
      let deltas := calculate_beat_deltas actor o.actual_outcome o.delta_llm
      let beat : Beat :=
        { id := o.beat_id, scene_id := scene_id, sequence := beat_sequence
          actor := actor, intended_action := action
          dice_roll := some dice_roll, actual_outcome := o.actual_outcome
          prose := o.prose, character_deltas := deltas
          tropes_active := dice_roll.fate_modifiers.map (fun fm => fm.trope) }
      let acts2 := update_scene_acts w.acts scene_id
        (fun s => { s with beats := s.beats ++ [beat] })
      let w2 :=
        { w with acts := acts2
                 current_beat_index := scene.beats.length + 1 - 1
                 status := "beat_resolved" }
      .ok (beat, w2)

/-- `NarrativeEngine.director_override_dice` from
`services/narrative_engine.py`, lines 1097-1111: record the intervention,
then resolve one beat in the current scene with the forced raw roll.
`_current_scene` indexes `acts[current_act_index].scenes
[current_scene_index]`; an out-of-range index raises `IndexError`. -/
def director_override_dice (w : NarrativeWorld) (actor action : String)
    (forced_roll : Int) (o : BeatOracle) :
    Except String (Beat × NarrativeWorld) :=
  match w.acts[w.current_act_index]? with
  | none => .error "IndexError"
  | some act =>
    match act.scenes[w.current_scene_index]? with
    | none => .error "IndexError"
    | some scene =>
      let intervention : DirectorIntervention :=
        { intervention_type := "override_dice"
          description := "Forced roll " ++ toString forced_roll ++ " for "
            ++ actor ++ ": " ++ action }
      let w1 := { w with director_interventions :=
        w.director_interventions ++ [intervention] }
      resolve_beat w1 scene.id actor action (some forced_roll) o

/-- One row of the list `get_dice_history` builds (lines 1233-1246 of
`services/narrative_engine.py`). -/
structure DiceHistoryEntry where
  act : Nat
  scene : Nat
  beat : Nat
  actor : String
  action : String
  raw_roll : Int
  fate_modifiers : List (String × Int × String)
  final_value : Int
  outcome : String
deriving DecidableEq

/-- The entry built for one beat with a dice roll. -/
def mkDiceHistoryEntry (act_number scene_number : Nat) (b : Beat)
    (dr : DiceRoll) : DiceHistoryEntry :=
  { act := act_number, scene := scene_number, beat := b.sequence
    actor := b.actor, action := b.intended_action, raw_roll := dr.raw_roll
    fate_modifiers := dr.fate_modifiers.map
      (fun fm => (fm.trope.name, fm.modifier, fm.rationale))
    final_value := dr.final_value, outcome := dr.outcome.value }

/-- `NarrativeEngine.get_dice_history` from `services/narrative_engine.py`,
lines 1225-1247: every beat of every scene of every act that carries a
dice roll, in traversal order. -/
def get_dice_history (w : NarrativeWorld) : List DiceHistoryEntry :=
  w.acts.flatMap (fun act =>
    act.scenes.flatMap (fun scene =>
      scene.beats.filterMap (fun b =>
        b.dice_roll.map (mkDiceHistoryEntry act.number scene.number b))))

/-- The in-memory world store `NarrativeEngine._worlds`
(`world_id → NarrativeWorld`), an association list with the keying
discipline of a Python dict. -/
abbrev WorldStore := List (String × NarrativeWorld)

/-- `NarrativeEngine.delete_world` from `services/narrative_engine.py`,
lines 1219-1223: `if world_id in self._worlds: del self._worlds[world_id]`.
The body contains no raise path — deletion of an absent id silently
leaves the store unchanged — so the `Except` is always `.ok`. -/
def delete_world (store : WorldStore) (world_id : String) :
    Except String WorldStore :=
  if (List.any store (fun kv => kv.1 == world_id)) then
    .ok (List.eraseP (fun kv => kv.1 == world_id) store)
  else
    .ok store

/-- The DELETE `/worlds/{world_id}` route from `api/narrative.py`,
lines 246-254: call `engine.delete_world`, translate a raised
`ValueError` into HTTP 404, otherwise answer 200 with
`{"status": "deleted"}`.  The result is `((status code, body), store)`. -/
def api_delete_world (store : WorldStore) (world_id : String) :
    (Nat × String) × WorldStore :=
  match delete_world store world_id with
  | .ok s2 => ((200, "deleted"), s2)
  | .error _ => ((404, "World not found"), store)

/-- Replace the act at index `i` (the engine mutates
`world.acts[current_act_index]` in place). -/
def update_act_at (acts : List Act) (i : Nat) (f : Act → Act) : List Act :=
  match acts[i]? with
  | none => acts
  | some a => acts.set i (f a)

/-- The decoded scene-composer answer of `compose_next_scene`
(lines 538-549 of `services/narrative_engine.py`), projected onto the
keys the source reads; a missing key is `none`.  The parsed
`narrative_threads` value is read into a dead local variable and never
used, so it is omitted. -/
structure ComposeParsed where
  actors : Option (List String)
  setting : Option String
  place_description : Option String
deriving DecidableEq

/-- Oracle inputs of one `compose_next_scene` call: generated scene id,
the three sampled tropes, and the decoded LLM answer. -/
structure ComposeOracle where
  scene_id : String
  tropes : List Trope
  parse : LLMResult ComposeParsed
deriving DecidableEq

/-- `NarrativeEngine.compose_next_scene` from
`services/narrative_engine.py`, lines 500-577: build the scene from the
decoded answer (with the defaults of lines 540-549), snapshot every
non-resolved thread state, append the scene to the current act and point
the scene/beat indices at it. -/
def compose_next_scene (w : NarrativeWorld) (o : ComposeOracle) :
    Except String (EngineScene × NarrativeWorld) :=
  match w.acts[w.current_act_index]? with
  | none => .error "IndexError"
  | some act =>
    let scene_number := act.scenes.length + 1
    let dflt_actors := (w.characters.map (fun kv => kv.1)).take 3
    let parsed :=
      match o.parse with
      | .ok p =>
        let setting := p.setting.getD "An unspecified location"
        (p.actors.getD dflt_actors, setting, p.place_description.getD setting)
      | .err => (dflt_actors, "A place in the world", "A place in the world")
    let thread_snapshot :=
      w.thread_states.filter (fun ts => !(ts.status == "resolved"))
    let scene : EngineScene :=
      { id := o.scene_id, act_id := act.id, number := scene_number
        actors := parsed.1, setting := parsed.2.1
        place_description := parsed.2.2
        narrative_threads := thread_snapshot, tropes_injected := o.tropes
        beats := [], scene_evaluation := "", full_prose := ""
        status := "composing", planned_actions := [] }
    let acts2 := w.acts.set w.current_act_index
      { act with scenes := act.scenes ++ [scene] }
    let w2 :=
      { w with acts := acts2
               current_scene_index := act.scenes.length + 1 - 1
               current_beat_index := 0
               status := "scene_composing" }
    .ok (scene, w2)

/-- `NarrativeEngine.generate_beat_actions` from
`services/narrative_engine.py`, lines 744-802: decode a list of
`(actor, action)` pairs (an item with an empty actor or action is
dropped), and fall back to one neutral observation action per scene actor
when nothing was decoded. -/
def generate_beat_actions (w : NarrativeWorld) (scene_id : String)
    (llm : LLMResult (List (String × String))) :
    Except String (List (String × String)) :=
  match find_scene_acts w.acts scene_id with
  | none => .error ("Scene " ++ scene_id ++ " not found")
  | some scene =>
    let actions :=
      match llm with
      | .ok items => items.filter (fun p => !(p.1 == "") && !(p.2 == ""))
      | .err => []
    if actions.isEmpty then
      .ok (scene.actors.map (fun a => (a, a ++ " observes the scene cautiously.")))
    else
      .ok actions

/-- Keep the first occurrence of each name, in order — the iteration
order of the `deltas_by_char` dict of `update_characters_after_scene`. -/
def dedupFirst (names : List String) : List String :=
  names.foldl (fun acc n => if acc.contains n then acc else acc ++ [n]) []

/-- Assignment `world.characters[name] = c` for an existing key. -/
def assoc_set (m : List (String × Character)) (k : String) (v : Character) :
    List (String × Character) :=
  m.map (fun kv => if kv.1 == k then (k, v) else kv)

/-- `NarrativeEngine.update_characters_after_scene` from
`services/narrative_engine.py`, lines 579-636, restricted to its world
effect: for each character that accumulated deltas in the scene (first
mention first) and exists in `world.characters`, the strong LLM rewrites
the profile (`char_llm name`); on success the profile is replaced (with
an empty parsed name falling back to the dict key), on any exception the
prior profile is preserved. -/
def update_characters_after_scene (w : NarrativeWorld) (scene_id : String)
    (char_llm : String → LLMResult Character) : Except String NarrativeWorld :=
  match find_scene_acts w.acts scene_id with
  | none => .error ("Scene " ++ scene_id ++ " not found")
  | some scene =>
    let names := dedupFirst (scene.beats.flatMap
      (fun b => b.character_deltas.map (fun d => d.character_name)))
    .ok (names.foldl (fun wacc nm =>
      if wacc.characters.any (fun kv => kv.1 == nm) then
        match char_llm nm with
        | .ok c =>
          let c2 := if c.name == "" then { c with name := nm } else c
          { wacc with characters := assoc_set wacc.characters nm c2 }
        | .err => wacc
      else wacc) w)

/-- Oracle inputs of one `complete_scene` call: the per-character profile
rewrites and the thread-state advancer answer. -/
structure CompleteSceneOracle where
  char_llm : String → LLMResult Character
  thread_llm : LLMResult (List ThreadItem)

/-- `NarrativeEngine.complete_scene` from `services/narrative_engine.py`,
lines 700-730: update characters, advance thread states, compile the
scene prose from its beats (non-empty prose only, joined by blank lines),
append it to the accumulated prose under a scene header when non-empty,
and mark the scene completed. -/
def complete_scene (w : NarrativeWorld) (scene_id : String)
    (o : CompleteSceneOracle) : Except String (EngineScene × NarrativeWorld) :=
  match find_scene_acts w.acts scene_id with
  | none => .error ("Scene " ++ scene_id ++ " not found")
  | some scene =>
    match update_characters_after_scene w scene_id o.char_llm with
    | .error e => .error e
    | .ok w1 =>
      let w2 := { w1 with thread_states :=
        advance_thread_states w1.thread_states o.thread_llm }
      let prose_parts := scene.beats.filterMap
        (fun b => if b.prose == "" then none else some b.prose)
      let full := String.intercalate "\n\n" prose_parts
      let w3 := { w2 with acts := (update_scene_acts w2.acts scene_id
        (fun s => { s with full_prose := full })) }
      let w4 :=
        if full == "" then w3
        else { w3 with accumulated_prose := w3.accumulated_prose
          ++ "\n\n--- Scene " ++ toString scene.number ++ " ---\n\n" ++ full }
      let w5 := { w4 with
        acts := update_scene_acts w4.acts scene_id
          (fun s => { s with status := "completed" })
        status := "scene_completed" }
      match find_scene_acts w5.acts scene_id with
      | some s2 => .ok (s2, w5)
      | none => .error ("Scene " ++ scene_id ++ " not found")

/-- Oracle inputs of one `complete_act` call: the world events decoded
before any item-level exception (the source keeps the prefix built so
far), the teleology verdict (`some (new_teleology, reason)` when the
decoded answer has a truthy `shifted`, `none` on a falsy `shifted` or any
exception), and the context-updater completion. -/
structure CompleteActOracle where
  world_events : List WorldEvent
  teleology : Option (String × String)
  new_context : String
deriving DecidableEq

/-- `NarrativeEngine.complete_act` from `services/narrative_engine.py`,
lines 475-494, composed of `generate_world_events` (lines 338-387),
`evaluate_teleology_shift` (lines 389-434) and `update_context`
(lines 436-473), restricted to their world effects. -/
def complete_act (w : NarrativeWorld) (o : CompleteActOracle) :
    Except String (Act × NarrativeWorld) :=
  match w.acts[w.current_act_index]? with
  | none => .error "IndexError"
  | some _ =>
    let w1 := { w with acts := (update_act_at w.acts w.current_act_index
      (fun a => { a with world_events := a.world_events ++ o.world_events })) }
    let w2 :=
      match o.teleology with
      | some (newT, reason) =>
        let shift : TeleologyShift :=
          { original := w1.tccn.teleology, shifted := newT, reason := reason }
        { w1 with tccn := { w1.tccn with teleology := newT }
                  acts := update_act_at w1.acts w1.current_act_index
                    (fun a => { a with teleology_shift := some shift }) }
      | none => w1
    let ctx := o.new_context.trim
    let w3 := { w2 with tccn := { w2.tccn with context := ctx }
                        acts := update_act_at w2.acts w2.current_act_index
                          (fun a => { a with context_evolution := ctx }) }
    let w4 := { w3 with
      acts := update_act_at w3.acts w3.current_act_index
        (fun a => { a with status := "completed" })
      status := "act_completed" }
    match w4.acts[w4.current_act_index]? with
    | some a => .ok (a, w4)
    | none => .error "IndexError"

/-- The event dicts `advance` returns (lines 1021-1089 of
`services/narrative_engine.py`). -/
inductive AdvanceEvent where
  | act_planned (act_number : Nat) (title : String)
  | act_completed (act_number : Nat) (world_events : List String)
  | scene_composed (scene_number : Nat) (actors : List String)
      (setting : String) (beat_count : Nat)
  | beat_resolved (beat_sequence : Nat)
      (actor intended_action actual_outcome : String)
      (dice_outcome : Option String) (raw_roll final_value : Option Int)
      (prose : String)
  | scene_completed (scene_number : Nat) (beats_count : Nat)
deriving DecidableEq

/-- `NarrativeEngine._current_act` (lines 123-124): indexing raises
`IndexError` when out of range. -/
def currentAct (w : NarrativeWorld) : Except String Act :=
  match w.acts[w.current_act_index]? with
  | some a => .ok a
  | none => .error "IndexError"

/-- `NarrativeEngine._current_scene` (lines 126-128). -/
def currentScene (w : NarrativeWorld) : Except String EngineScene := do
  let a ← currentAct w
  match a.scenes[w.current_scene_index]? with
  | some s => .ok s
  | none => .error "IndexError"

/-- `plan_act` plus the `act_planned` event `advance` emits for it. -/
def planAndEvent (w : NarrativeWorld) (act_id : String) (p : PlanParse) :
    Except String (AdvanceEvent × NarrativeWorld) := do
  let (act, w1) ← plan_act w act_id p
  pure (.act_planned act.number act.title, w1)

/-- Oracle inputs of one iteration of the `advance` loop, covering every
sub-operation the iteration may reach. -/
structure StepOracle where
  plan1 : PlanParse
  plan1_act_id : String
  complete_act_oracle : CompleteActOracle
  plan2 : PlanParse
  plan2_act_id : String
  compose : ComposeOracle
  actions_llm : LLMResult (List (String × String))
  beat : BeatOracle
  scene_done : CompleteSceneOracle

/-- One iteration of the `for _ in range(steps)` loop of
`NarrativeEngine.advance` (`services/narrative_engine.py`,
lines 1026-1089): ensure an act exists (plan one if none or completed),
ensure a scene exists (completing the act and planning the next when the
planned scenes are exhausted, then composing a scene and generating its
beat actions), then either resolve the next planned beat or complete the
scene. -/
def advance_step (w : NarrativeWorld) (o : StepOracle) :
    Except String (List AdvanceEvent × NarrativeWorld) := do
  let needAct ←
    if w.acts.isEmpty then pure true
    else do
      let a ← currentAct w
      pure (a.status == "completed")
  let (evs1, w1) ←
    if needAct then do
      let (ev, w1) ← planAndEvent w o.plan1_act_id o.plan1
      pure ([ev], w1)
    else pure (([] : List AdvanceEvent), w)
  let act ← currentAct w1
  let needScene ←
    if act.scenes.isEmpty then pure true
    else do
      let s ← currentScene w1
      pure (s.status == "completed")
  let (evs2, w2) ←
    if needScene then do
      let (evsA, wA) ←
        match act.plan with
        | some plan =>
          if act.scenes.length ≥ plan.planned_scenes.length then do
            let (cact, wB) ← complete_act w1 o.complete_act_oracle
            let evDone := AdvanceEvent.act_completed cact.number
              (cact.world_events.map (fun we => we.description))
            let (evPlan, wC) ← planAndEvent wB o.plan2_act_id o.plan2
            pure ([evDone, evPlan], wC)
          else pure (([] : List AdvanceEvent), w1)
        | none => pure (([] : List AdvanceEvent), w1)
      let (scene, wD) ← compose_next_scene wA o.compose
      let actions ← generate_beat_actions wD scene.id o.actions_llm
      let wE := { wD with acts := (update_scene_acts wD.acts scene.id
        (fun s => { s with planned_actions := actions })) }
      let ev := AdvanceEvent.scene_composed scene.number scene.actors
        scene.setting actions.length
      pure (evsA ++ [ev], wE)
    else pure (([] : List AdvanceEvent), w1)
  let scene ← currentScene w2
  let beat_idx := scene.beats.length
  match scene.planned_actions[beat_idx]? with
  | some (actor, action) => do
    let (beat, w3) ← resolve_beat w2 scene.id actor action none o.beat
    let ev := AdvanceEvent.beat_resolved beat.sequence beat.actor
      beat.intended_action beat.actual_outcome
      (beat.dice_roll.map (fun d => d.outcome.value))
      (beat.dice_roll.map (fun d => d.raw_roll))
      (beat.dice_roll.map (fun d => d.final_value)) beat.prose
    pure (evs1 ++ evs2 ++ [ev], w3)
  | none => do
    let (cscene, w3) ← complete_scene w2 scene.id o.scene_done
    pure (evs1 ++ evs2
      ++ [AdvanceEvent.scene_completed cscene.number cscene.beats.length], w3)

/-- The `for _ in range(steps)` loop of `advance`: `n` iterations remain,
`i` indexes the oracle, `events` accumulates. -/
def advance_loop (oracle : Nat → StepOracle) :
    Nat → Nat → NarrativeWorld → List AdvanceEvent →
    Except String (List AdvanceEvent × NarrativeWorld)
  | 0, _, w, events => .ok (events, w)
  | n + 1, i, w, events =>
    match advance_step w (oracle i) with
    | .error e => .error e
    | .ok (evs, w2) => advance_loop oracle n (i + 1) w2 (events ++ evs)

/-- `NarrativeEngine.advance` from `services/narrative_engine.py`,
lines 1012-1091, for an existing world (the `world_id` lookup already
done): run the loop `steps` times starting from an empty event list. -/
def advance (w : NarrativeWorld) (steps : Nat) (oracle : Nat → StepOracle) :
    Except String (List AdvanceEvent × NarrativeWorld) :=
  advance_loop oracle steps 0 w []

/-!  ## Theorems  -/

/-- A sample trope for concrete instantiations. -/
def demoTrope : Trope :=
  { id := 1, name := "Tragic Hubris", description := "Overconfidence invites downfall." }

/-- C1: for every call to `resolve_action` — whether `override_roll` is
supplied in `[1..100]` or the d100 is rolled — the returned `DiceRoll`
satisfies `final_value = clamp(raw_roll + sum of modifier over
fate_modifiers, 1, 100)`; in particular `final_value` is always in
`[1..100]`. -/
theorem resolve_action_final_clamped (action actor : String)
    (active_tropes : List Trope) (llm : LLMResult (List ModifierItem))
    (d100 : Int) (override_roll : Option Int)
    (h : (∃ o, override_roll = some o ∧ 1 ≤ o ∧ o ≤ 100) ∨
         (override_roll = none ∧ 1 ≤ d100 ∧ d100 ≤ 100)) :
    ∃ dr, resolve_action action actor active_tropes llm d100 override_roll
        = .ok dr ∧
      dr.final_value =
        clamp (dr.raw_roll + (dr.fate_modifiers.map (fun m => m.modifier)).sum)
          1 100 ∧
      1 ≤ dr.final_value ∧ dr.final_value ≤ 100 := by
  have hraw : 1 ≤ override_roll.getD d100 ∧ override_roll.getD d100 ≤ 100 := by
    rcases h with ⟨o, ho, h1, h2⟩ | ⟨ho, h1, h2⟩ <;> subst ho <;>
      simpa using And.intro h1 h2
  simp only [resolve_action]
  rw [if_pos hraw]
  refine ⟨_, rfl, rfl, le_max_left 1 _, ?_⟩
  exact max_le (by norm_num) (min_le_left 100 _)

/-- Witness for C1 at a concrete input with `override_roll = some 7`. -/
theorem resolve_action_final_clamped_witness :
    ∃ dr, resolve_action "open the locked chest" "Keeper" [] .err 0 (some 7)
        = .ok dr ∧
      dr.final_value =
        clamp (dr.raw_roll + (dr.fate_modifiers.map (fun m => m.modifier)).sum)
          1 100 ∧
      1 ≤ dr.final_value ∧ dr.final_value ≤ 100 :=
  resolve_action_final_clamped "open the locked chest" "Keeper" [] .err 0
    (some 7) (Or.inl ⟨7, rfl, by norm_num, by norm_num⟩)

/-- C2: `classify_outcome` is a total, deterministic function on `[1..100]`
matching the fixed table — 1-5 catastrophic_failure, 6-30 failure, 31-60
mixed, 61-90 success, 91-100 critical_success — and every `DiceRoll`
returned by `resolve_action` has `outcome = classify_outcome final_value`.
Totality and determinism hold because `classify_outcome` is a Lean
function. -/
theorem classify_outcome_table :
    (∀ v : Int, 1 ≤ v → v ≤ 5 →
      classify_outcome v = .catastrophic_failure) ∧
    (∀ v : Int, 6 ≤ v → v ≤ 30 → classify_outcome v = .failure) ∧
    (∀ v : Int, 31 ≤ v → v ≤ 60 → classify_outcome v = .mixed) ∧
    (∀ v : Int, 61 ≤ v → v ≤ 90 → classify_outcome v = .success) ∧
    (∀ v : Int, 91 ≤ v → v ≤ 100 →
      classify_outcome v = .critical_success) ∧
    (∀ action actor active_tropes llm d100 override_roll dr,
      resolve_action action actor active_tropes llm d100 override_roll
          = Except.ok dr →
      dr.outcome = classify_outcome dr.final_value) := by
  refine ⟨?_, ?_, ?_, ?_, ?_, ?_⟩
  case _ => intro v h1 h2; unfold classify_outcome
            rw [if_pos h2]
  case _ => intro v h1 h2; unfold classify_outcome
            split_ifs <;> first | rfl | omega
  case _ => intro v h1 h2; unfold classify_outcome
            split_ifs <;> first | rfl | omega
  case _ => intro v h1 h2; unfold classify_outcome
            split_ifs <;> first | rfl | omega
  case _ => intro v h1 h2; unfold classify_outcome
            split_ifs <;> first | rfl | omega
  case _ =>
    intro action actor active_tropes llm d100 override_roll dr h
    simp only [resolve_action] at h
    split_ifs at h
    cases h
    rfl

/-- Witness for C2 at concrete table points and a concrete resolution. -/
theorem classify_outcome_table_witness :
    classify_outcome 3 = .catastrophic_failure ∧
    classify_outcome 20 = .failure ∧
    classify_outcome 45 = .mixed ∧
    classify_outcome 75 = .success ∧
    classify_outcome 95 = .critical_success ∧
    ({ raw_roll := 7, fate_modifiers := [], final_value := 7,
       outcome := .failure, action_description := "probe the dark",
       actor := "Keeper" } : DiceRoll).outcome =
      classify_outcome
        ({ raw_roll := 7, fate_modifiers := [], final_value := 7,
           outcome := .failure, action_description := "probe the dark",
           actor := "Keeper" } : DiceRoll).final_value :=
  ⟨classify_outcome_table.1 3 (by norm_num) (by norm_num),
   classify_outcome_table.2.1 20 (by norm_num) (by norm_num),
   classify_outcome_table.2.2.1 45 (by norm_num) (by norm_num),
   classify_outcome_table.2.2.2.1 75 (by norm_num) (by norm_num),
   classify_outcome_table.2.2.2.2.1 95 (by norm_num) (by norm_num),
   classify_outcome_table.2.2.2.2.2 "probe the dark" "Keeper" [] .err 0
     (some 7) _ rfl⟩

/-- C5: for every non-empty list of active tropes,
`assess_fate_modifiers` never raises to its caller — when the LLM call or
the JSON decoding of its answer fails, it returns exactly one
`FateModifier` per active trope, each with modifier `0`. -/
theorem assess_fate_modifiers_neutral_on_failure (active_tropes : List Trope)
    (h : active_tropes ≠ []) :
    assess_fate_modifiers active_tropes .err =
      active_tropes.map (fun t =>
        { trope := t, modifier := 0
          rationale := "(assessment failed)" : FateModifier }) := by
  cases active_tropes with
  | nil => exact absurd rfl h
  | cons a l => rfl

/-- Witness for C5 on a one-trope list. -/
theorem assess_fate_modifiers_neutral_on_failure_witness :
    assess_fate_modifiers [demoTrope] .err =
      [demoTrope].map (fun t =>
        { trope := t, modifier := 0
          rationale := "(assessment failed)" : FateModifier }) :=
  assess_fate_modifiers_neutral_on_failure [demoTrope] (by decide)

/-- A modifier item whose reported modifier 50 is out of range. -/
def demoItem : ModifierItem :=
  { trope_name := "Tragic Hubris", modifier := 50
    rationale := "wild overconfidence" }

/-- C6: every `FateModifier` produced by `assess_fate_modifiers` has
modifier in `[-30, 30]`; an out-of-range integer reported by the LLM is
silently clamped to the bound (`max(-30, min(30, m))`) rather than
rejected or propagated. -/
theorem fate_modifier_bounded :
    (∀ (active_tropes : List Trope) (llm : LLMResult (List ModifierItem))
        (fm : FateModifier), fm ∈ assess_fate_modifiers active_tropes llm →
      -30 ≤ fm.modifier ∧ fm.modifier ≤ 30) ∧
    (∀ active_tropes item, (fate_modifier_of active_tropes item).modifier =
      max (-30) (min 30 item.modifier)) := by
  constructor
  · intro active llm fm hmem
    cases active with
    | nil => simp [assess_fate_modifiers] at hmem
    | cons a l =>
      cases llm with
      | err =>
        simp only [assess_fate_modifiers, List.isEmpty_cons, if_false,
          Bool.false_eq_true, List.mem_map] at hmem
        obtain ⟨t, _, rfl⟩ := hmem
        exact ⟨by norm_num, by norm_num⟩
      | ok items =>
        simp only [assess_fate_modifiers, List.isEmpty_cons, if_false,
          Bool.false_eq_true, List.mem_map] at hmem
        obtain ⟨item, _, rfl⟩ := hmem
        refine ⟨le_max_left _ _, ?_⟩
        exact max_le (by norm_num) (min_le_left 30 _)
  · intro active item
    rfl

/-- Witness for C6: the out-of-range report 50 appears clamped (to 30)
among the produced modifiers, within bounds. -/
theorem fate_modifier_bounded_witness :
    -30 ≤ (fate_modifier_of [demoTrope] demoItem).modifier ∧
      (fate_modifier_of [demoTrope] demoItem).modifier ≤ 30 :=
  fate_modifier_bounded.1 [demoTrope] (.ok [demoItem]) _ (by decide)

/-- A thread state that is resolved before a scene completion. -/
def demoResolvedState : NarrativeThreadState :=
  { thread := ⟨"the pact between rivals"⟩, status := "resolved"
    tension_level := 5, notes := "" }

/-- A well-formed thread item by which the LLM demotes that thread. -/
def demoDemotingItem : ThreadItem :=
  { thread := some (.obj "the pact between rivals")
    status := some "active", tension_level := some 5 }

/-- Counterexample to C3: a world whose single thread state is
`resolved`, and an LLM answer that parses and validates and lists the
same thread as `active`.  `advance_thread_states` replaces the state list
wholesale with the answer, so after the update the thread has status
`active`: resolved is not absorbing and a resolved thread is demoted. -/
theorem resolved_thread_demoted_counterexample :
    demoResolvedState.status = "resolved" ∧
    advance_thread_states [demoResolvedState] (.ok [demoDemotingItem]) =
      [{ thread := ⟨"the pact between rivals"⟩, status := "active"
         tension_level := 5, notes := "" }] := by
  decide

/-- C3 amended: a thread state that is `resolved` before
`advance_thread_states` runs is still `resolved` afterwards only when the
LLM answer fails to parse or validate, in which case the whole old list is
kept; when the answer parses and validates, `world.thread_states` is
replaced wholesale by exactly the returned list, with no enforcement that
a previously resolved thread keeps its status. -/
theorem advance_thread_states_replacement :
    (∀ old, advance_thread_states old .err = old) ∧
    (∀ old (items : List ThreadItem) new_states,
      items.mapM mkThreadState = some new_states →
      advance_thread_states old (.ok items) = new_states) := by
  constructor
  · intro old
    rfl
  · intro old items new_states h
    show (match items.mapM mkThreadState with
          | none => old
          | some ns => ns) = new_states
    rw [h]

/-- Witness for C3 amended: the failure branch keeps the resolved state,
the success branch installs exactly the demoting list. -/
theorem advance_thread_states_replacement_witness :
    advance_thread_states [demoResolvedState] .err = [demoResolvedState] ∧
    advance_thread_states [demoResolvedState] (.ok [demoDemotingItem]) =
      [{ thread := ⟨"the pact between rivals"⟩, status := "active"
         tension_level := 5, notes := "" }] :=
  ⟨advance_thread_states_replacement.1 [demoResolvedState],
   advance_thread_states_replacement.2 [demoResolvedState] [demoDemotingItem]
     [{ thread := ⟨"the pact between rivals"⟩, status := "active"
        tension_level := 5, notes := "" }] (by decide)⟩

/-- C4 (code bug): when decoding the act-planner answer fails in
`_safe_json_loads`, the `except` branch of `plan_act` builds the
three-scene fallback plan, but line 321 then evaluates
`isinstance(data, dict)` with the local `data` never assigned, so the call
raises `UnboundLocalError` instead of returning: no act is appended and no
index advances.  This theorem evaluates the embedded code at the failing
input. -/
theorem plan_act_raises_on_json_error (w : NarrativeWorld) (act_id : String) :
    plan_act w act_id .jsonError = .error "UnboundLocalError: data is unbound" :=
  rfl

/-- An actual outcome longer than 200 characters. -/
def longOutcome : String := String.mk (List.replicate 201 'a')

set_option maxRecDepth 8192 in
/-- Counterexample to C8: with a 201-character actual outcome, the
synthesized delta single short-term memory is the 200-character
truncation of the outcome, which differs from the actual outcome. -/
theorem beat_delta_truncates_counterexample :
    (calculate_beat_deltas "Keeper" longOutcome .err).map
        (fun d => d.new_short_term_memories) =
      [[String.mk (List.replicate 200 'a')]] ∧
    ¬(String.mk (List.replicate 200 'a') = longOutcome) := by
  decide

/-- C8 amended: when the LLM returns unparseable JSON for the character
delta of a beat, the beat still resolves and the scene still completes —
`_calculate_beat_deltas` returns exactly one `CharacterDelta` for the
acting character whose `new_short_term_memories` holds exactly one entry,
the actual outcome truncated to its first 200 characters, with every
other delta field empty. -/
theorem beat_delta_fallback (actor actual_outcome : String) :
    calculate_beat_deltas actor actual_outcome .err =
      [{ character_name := actor
         new_short_term_memories := [actual_outcome.take 200]
         new_long_term_memories := []
         internal_state_shift := ""
         ambition_shift := ""
         contradiction_shifts := []
         physical_state_change := "" }] :=
  rfl

/-- C9: for every existing world, `advance(world_id, 0)` returns the
empty event list and leaves the entire `WorldState` unchanged — the loop
body never runs, so no act is planned, no scene is composed, no beat is
resolved and no field of the world is mutated, whatever the LLM oracles
would have answered. -/
theorem advance_zero_steps (w : NarrativeWorld) (oracle : Nat → StepOracle) :
    advance w 0 oracle = .ok ([], w) :=
  rfl

/-- C10: `delete_world` never raises for any id; deleting an id absent
from the store leaves the store unchanged (so deletion is idempotent);
consequently the DELETE `/worlds/{world_id}` route always answers 200
with body `deleted` and its 404 branch is unreachable. -/
theorem delete_world_never_fails :
    (∀ (store : WorldStore) (world_id : String),
      ∃ s2, delete_world store world_id = .ok s2) ∧
    (∀ (store : WorldStore) (world_id : String),
      store.any (fun kv => kv.1 == world_id) = false →
      delete_world store world_id = .ok store) ∧
    (∀ (store : WorldStore) (world_id : String),
      (api_delete_world store world_id).1 = (200, "deleted")) := by
  refine ⟨?_, ?_, ?_⟩
  · intro store world_id
    unfold delete_world
    split_ifs <;> exact ⟨_, rfl⟩
  · intro store world_id h
    simp [delete_world, h]
  · intro store world_id
    unfold api_delete_world delete_world
    split_ifs <;> rfl

/-- A minimal character for concrete worlds. -/
def demoKeeper : Character :=
  { name := "Keeper", internal_state := "uneasy", ambitions := "find the truth"
    teleology := "", philosophy := "", physical_state := "tired"
    long_term_memory := [], short_term_memory := []
    internal_contradictions := [], voice_style := "laconic" }

/-- A scene of the demo world, currently in progress with no beats. -/
def demoScene : EngineScene :=
  { id := "scn1", act_id := "act1", number := 1, actors := ["Keeper"]
    setting := "the lamp room", place_description := "the lamp room at dusk"
    narrative_threads := [], tropes_injected := [], beats := []
    scene_evaluation := "", full_prose := "", status := "in_progress"
    planned_actions := [] }

/-- An act of the demo world containing that scene. -/
def demoAct : Act :=
  { id := "act1", number := 1, title := "Act 1", plan := none
    scenes := [demoScene], world_events := [], teleology_shift := none
    context_evolution := "", status := "in_progress" }

/-- A concrete world positioned on `demoScene`. -/
def demoWorld : NarrativeWorld :=
  { id := "w1", seed_description := "A lighthouse keeper finds a diary."
    tccn := { teleology := "truth will out", context := "a lighthouse"
              characters := [{ name := "Keeper", description := "the keeper" }]
              narrative_threads := [⟨"a diary is found"⟩] }
    characters := [("Keeper", demoKeeper)], acts := [demoAct]
    current_act_index := 0, current_scene_index := 0, current_beat_index := 0
    thread_states := [], global_trope_pool := [], mode := "director"
    director_interventions := [], accumulated_prose := ""
    status := "initialized" }

/-- Witness for C10: deleting an absent id from a one-world store leaves
it unchanged. -/
theorem delete_world_never_fails_witness :
    delete_world [("w1", demoWorld)] "missing" = .ok [("w1", demoWorld)] :=
  delete_world_never_fails.2.1 [("w1", demoWorld)] "missing" (by decide)

/-- If some scene of the list carries the wanted id, the linear scan of
`_find_scene` finds a scene. -/
theorem find_scene_in_isSome (scenes : List EngineScene) (scene_id : String)
    (h : ∃ s ∈ scenes, s.id = scene_id) :
    ∃ s2, find_scene_in scenes scene_id = some s2 := by
  induction scenes with
  | nil => obtain ⟨s, hs, _⟩ := h; cases hs
  | cons a rest ih =>
    cases ha : (a.id == scene_id) with
    | true => exact ⟨a, by simp [find_scene_in, ha]⟩
    | false =>
      obtain ⟨s, hs, hid⟩ := h
      rcases List.mem_cons.mp hs with rfl | hs2
      · simp [hid] at ha
      · obtain ⟨s2, h2⟩ := ih ⟨s, hs2, hid⟩
        exact ⟨s2, by simp [find_scene_in, ha, h2]⟩

/-- If some scene of some act carries the wanted id, `_find_scene` finds
a scene. -/
theorem find_scene_acts_isSome (acts : List Act) (scene_id : String)
    (h : ∃ a ∈ acts, ∃ s ∈ a.scenes, s.id = scene_id) :
    ∃ s2, find_scene_acts acts scene_id = some s2 := by
  induction acts with
  | nil => obtain ⟨a, ha, _⟩ := h; cases ha
  | cons a rest ih =>
    cases hfi : find_scene_in a.scenes scene_id with
    | some s0 => exact ⟨s0, by simp [find_scene_acts, hfi]⟩
    | none =>
      obtain ⟨a1, ha1, hs⟩ := h
      rcases List.mem_cons.mp ha1 with rfl | ha2
      · obtain ⟨s2, h2⟩ := find_scene_in_isSome a1.scenes scene_id hs
        rw [h2] at hfi
        cases hfi
      · obtain ⟨s2, h2⟩ := ih ⟨a1, ha2, hs⟩
        exact ⟨s2, by simp [find_scene_acts, hfi, h2]⟩

/-- The scene found by the scan is the one the in-place update rewrites:
its image under `f` is in the updated list. -/
theorem update_scene_in_mem (scenes : List EngineScene) (scene_id : String)
    (f : EngineScene → EngineScene) (s2 : EngineScene)
    (h : find_scene_in scenes scene_id = some s2) :
    f s2 ∈ update_scene_in scenes scene_id f := by
  induction scenes with
  | nil => cases h
  | cons a rest ih =>
    cases ha : (a.id == scene_id) with
    | true =>
      simp only [find_scene_in, ha, if_true] at h
      cases h
      simp [update_scene_in, ha]
    | false =>
      simp only [find_scene_in, ha, Bool.false_eq_true, if_false] at h
      simpa [update_scene_in, ha] using Or.inr (ih h)

/-- Across the acts list: the updated scene lives in some act of the
updated acts list. -/
theorem update_scene_acts_mem (acts : List Act) (scene_id : String)
    (f : EngineScene → EngineScene) (s2 : EngineScene)
    (h : find_scene_acts acts scene_id = some s2) :
    ∃ a2 ∈ update_scene_acts acts scene_id f, f s2 ∈ a2.scenes := by
  induction acts with
  | nil => cases h
  | cons a rest ih =>
    cases hfi : find_scene_in a.scenes scene_id with
    | some s0 =>
      simp only [find_scene_acts, hfi] at h
      cases h
      refine ⟨{ a with scenes := update_scene_in a.scenes scene_id f }, ?_, ?_⟩
      · simp [update_scene_acts, hfi]
      · exact update_scene_in_mem a.scenes scene_id f _ hfi
    | none =>
      simp only [find_scene_acts, hfi] at h
      obtain ⟨a2, ha2, hmem⟩ := ih h
      exact ⟨a2, by simp [update_scene_acts, hfi, ha2], hmem⟩

/-- Every beat with a dice roll contributes its row to the dice
history. -/
theorem dice_history_mem (w : NarrativeWorld) (a : Act) (s : EngineScene)
    (b : Beat) (dr : DiceRoll) (ha : a ∈ w.acts) (hs : s ∈ a.scenes)
    (hb : b ∈ s.beats) (hdr : b.dice_roll = some dr) :
    mkDiceHistoryEntry a.number s.number b dr ∈ get_dice_history w := by
  unfold get_dice_history
  refine List.mem_flatMap.mpr ⟨a, ha, List.mem_flatMap.mpr
    ⟨s, hs, List.mem_filterMap.mpr ⟨b, hb, ?_⟩⟩⟩
  rw [hdr]
  rfl

/-- After appending a beat with raw roll `r` to the scene the scan found,
the dice history of any world holding the updated acts reports an entry
with that raw roll, actor and action. -/
theorem history_any_after_update (w2 : NarrativeWorld) (worig : List Act)
    (scene_id : String) (b : Beat) (dr : DiceRoll) (s2 : EngineScene)
    (r : Int) (actor action : String)
    (hfind : find_scene_acts worig scene_id = some s2)
    (hw2 : w2.acts = update_scene_acts worig scene_id
      (fun s => { s with beats := s.beats ++ [b] }))
    (hdr : b.dice_roll = some dr) (hraw : dr.raw_roll = r)
    (hactor : b.actor = actor) (haction : b.intended_action = action) :
    (get_dice_history w2).any
      (fun e => e.raw_roll == r && e.actor == actor && e.action == action)
      = true := by
  obtain ⟨a2, ha2, hsmem⟩ := update_scene_acts_mem worig scene_id
    (fun s => { s with beats := s.beats ++ [b] }) s2 hfind
  have hbmem : b ∈ ({ s2 with beats := s2.beats ++ [b] } : EngineScene).beats :=
    List.mem_append_right _ (List.mem_singleton.mpr rfl)
  have ha2w : a2 ∈ w2.acts := by rw [hw2]; exact ha2
  have hentry := dice_history_mem w2 a2 _ b dr ha2w hsmem hbmem hdr
  refine List.any_eq_true.mpr ⟨_, hentry, ?_⟩
  simp [mkDiceHistoryEntry, hraw, hactor, haction]

/-- The beat value `resolve_beat` constructs once the dice resolved to
`dice` on the found scene `s2`. -/
def resolved_beat_of (scene_id actor action : String) (o : BeatOracle)
    (dice : DiceRoll) (s2 : EngineScene) : Beat :=
  { id := o.beat_id, scene_id := scene_id, sequence := s2.beats.length + 1
    actor := actor, intended_action := action, dice_roll := some dice
    actual_outcome := o.actual_outcome, prose := o.prose
    character_deltas := calculate_beat_deltas actor o.actual_outcome o.delta_llm
    tropes_active := dice.fate_modifiers.map (fun fm => fm.trope) }

/-- `resolve_beat` with an in-range forced roll on a findable scene
succeeds, records the forced roll as `raw_roll`, and the forced roll is
reported by the dice history of the resulting world. -/
theorem resolve_beat_roll_reported (w : NarrativeWorld)
    (scene_id actor action : String) (r : Int) (o : BeatOracle)
    (s2 : EngineScene)
    (hfind : find_scene_acts w.acts scene_id = some s2)
    (h1 : 1 ≤ r) (h2 : r ≤ 100) :
    ∃ beat w2, resolve_beat w scene_id actor action (some r) o
        = .ok (beat, w2) ∧
      (∃ dr, beat.dice_roll = some dr ∧ dr.raw_roll = r) ∧
      (get_dice_history w2).any
        (fun e => e.raw_roll == r && e.actor == actor && e.action == action)
        = true := by
  obtain ⟨dice, hres, hraw⟩ :
      ∃ d, resolve_action action actor o.active_tropes o.fate_llm o.d100
          (some r) = .ok d ∧ d.raw_roll = r := by
    simp [resolve_action, h1, h2]
  refine ⟨resolved_beat_of scene_id actor action o dice s2,
    { w with
      acts := (update_scene_acts w.acts scene_id (fun s =>
        { s with beats := s.beats
            ++ [resolved_beat_of scene_id actor action o dice s2] }))
      current_beat_index := s2.beats.length + 1 - 1
      status := "beat_resolved" }, ?_, ?_, ?_⟩
  · simp only [resolve_beat, hfind, hres, resolved_beat_of]
  · exact ⟨dice, rfl, hraw⟩
  · exact history_any_after_update _ w.acts scene_id _ dice s2 r actor action
      hfind rfl rfl hraw rfl rfl

/-- C7: for every forced roll `r ∈ [1..100]`,
`director_override_dice(world_id, actor, action, r)` resolves a beat
whose `dice_roll.raw_roll` equals `r`, and a subsequent
`get_dice_history` for that world reports `raw_roll == r` for that beat
(identified by its actor and action). -/
theorem director_override_roll_in_history (w : NarrativeWorld)
    (actor action : String) (r : Int) (o : BeatOracle)
    (hA : w.current_act_index < w.acts.length)
    (hS : w.current_scene_index <
      (w.acts[w.current_act_index]).scenes.length)
    (h1 : 1 ≤ r) (h2 : r ≤ 100) :
    ∃ beat w2, director_override_dice w actor action r o = .ok (beat, w2) ∧
      (∃ dr, beat.dice_roll = some dr ∧ dr.raw_roll = r) ∧
      (get_dice_history w2).any
        (fun e => e.raw_roll == r && e.actor == actor && e.action == action)
        = true := by
  have hact : w.acts[w.current_act_index]?
      = some (w.acts[w.current_act_index]) := List.getElem?_eq_getElem hA
  have hscn : (w.acts[w.current_act_index]).scenes[w.current_scene_index]?
      = some ((w.acts[w.current_act_index]).scenes[w.current_scene_index]) :=
    List.getElem?_eq_getElem hS
  obtain ⟨s2, hfind⟩ := find_scene_acts_isSome w.acts
    ((w.acts[w.current_act_index]).scenes[w.current_scene_index]).id
    ⟨_, List.getElem_mem hA, _, List.getElem_mem hS, rfl⟩
  simp only [director_override_dice, hact, hscn]
  exact resolve_beat_roll_reported _ _ actor action r o s2 hfind h1 h2

/-- The oracle for the C7 witness: no tropes, failed fate assessment,
irrelevant d100. -/
def demoBeatOracle : BeatOracle :=
  { active_tropes := [], fate_llm := .err, d100 := 50
    actual_outcome := "The chest springs open badly.", prose := "(He recoils.)"
    delta_llm := .err, beat_id := "beat1" }

/-- Witness for C7 on the concrete demo world with forced roll 1. -/
theorem director_override_roll_in_history_witness :
    ∃ beat w2,
      director_override_dice demoWorld "Keeper" "open the locked chest" 1
          demoBeatOracle = .ok (beat, w2) ∧
      (∃ dr, beat.dice_roll = some dr ∧ dr.raw_roll = 1) ∧
      (get_dice_history w2).any
        (fun e => e.raw_roll == 1 && e.actor == "Keeper"
          && e.action == "open the locked chest") = true :=
  director_override_roll_in_history demoWorld "Keeper" "open the locked chest"
    1 demoBeatOracle (by decide) (by decide) (by decide) (by decide)

end Playwriter
